import Mathlib

/-!
Verification of the audio normalization and transcription pipeline of a
speech-to-text tool (src/app.py).  The two core functions, `convert_to_wav`
and `transcribe_audio`, are shallowly embedded: each fallible external step
(decoders, the scratch file, the audio source, the two remote recognition
calls) is an input of the Lean function, and the Lean function reproduces the
control flow of the Python source exactly, including which branches delete
the scratch file and which error dictionaries are returned.
-/

namespace SpeechTotext

/-- Audio byte strings are modelled as lists of byte values. -/
abbrev Bytes := List Nat

/-- Exceptions that can reach the two outer handlers of `transcribe_audio`
(src/app.py lines 163-172): `sr.RequestError` with its string rendering, or
any other exception with its string rendering. -/
inductive PyErr where
  | requestError (detail : String)
  | other (detail : String)
deriving DecidableEq

/-- Result of the primary `recognizer.recognize_google` call (line 125): a
transcript string, `sr.UnknownValueError` (no speech recognized), or any
other exception (a `RequestError` among them) propagating outward. -/
inductive PrimaryResult where
  | ok (text : String)
  | unknownValue
  | raises (e : PyErr)
deriving DecidableEq

/-- One entry of the ranked candidate list: a dict that may or may not carry
a transcript string (read with `.get` and default at line 145). -/
structure Candidate where
  transcript : Option String
deriving DecidableEq

/-- The dict returned by the `show_all=True` call: the key `alternative` is
present (with its candidate list) or absent. -/
structure ShowAllDict where
  alternative : Option (List Candidate)
deriving DecidableEq

/-- Result of the fallback `recognize_google(..., show_all=True)` call
(line 137): a returned value (`none` models a falsy result such as an empty
dict) or any raised exception, all of which the bare `except:` at line 155
swallows. -/
inductive FallbackResult where
  | value (result : Option ShowAllDict)
  | raises
deriving DecidableEq

/-- Result of opening `sr.AudioFile` and reading `source.DURATION`
(lines 114-115): the measured duration in seconds, or an exception. -/
inductive OpenResult where
  | ok (duration : ℚ)
  | raises (e : PyErr)
deriving DecidableEq

/-- The behaviour of every fallible step of one `transcribe_audio` run:
`none` means the step succeeds, `some e` that it raises `e`. -/
structure Env where
  writeTmp : Option PyErr
  openAudio : OpenResult
  adjustNoise : Option PyErr
  recordStep : Option PyErr
  primary : PrimaryResult
  fallback : FallbackResult
deriving DecidableEq

/-- The dict returned by `transcribe_audio`: a success dict with text,
duration and confidence, or a failure dict with an error string and an
optional duration. -/
inductive Outcome where
  | success (text : String) (duration : ℚ) (confidence : String)
  | failure (error : String) (duration : Option ℚ)
deriving DecidableEq

/-- The duration key of an outcome dict, when present. -/
def Outcome.durationOf : Outcome → Option ℚ
  | .success _ d _ => some d
  | .failure _ d => d

/-- What one run of `transcribe_audio` returns and does: the outcome dict,
whether the fallback recognition call was invoked, whether the scratch file
was created, whether it was deleted (`os.unlink`), and the window length
passed to `adjust_for_ambient_noise` when that call was reached. -/
structure Trace where
  outcome : Outcome
  fallbackCalled : Bool
  tmpCreated : Bool
  tmpDeleted : Bool
  calibWindow : Option ℚ
deriving DecidableEq

/-- The ambient-noise calibration window of line 118:
`duration=min(1.0, audio_length)`. -/
def calibrationWindow (audio_length : ℚ) : ℚ :=
  min 1 audio_length

/-- The two outer exception handlers of `transcribe_audio`
(lines 163-172): `except sr.RequestError` returns the `API error:` dict,
`except Exception` the `Error:` dict; neither carries a duration. -/
def outerHandler (e : PyErr) : Outcome :=
  match e with
  | .requestError detail => .failure ("API error: " ++ detail) none
  | .other detail => .failure ("Error: " ++ detail) none

/-- Shallow embedding of `transcribe_audio` (src/app.py lines 92-172),
branch for branch: scratch-file creation, `sr.AudioFile` open and duration
read, ambient-noise calibration, `record`, the primary recognition call,
and on `UnknownValueError` the `show_all=True` fallback whose every error is
swallowed into the fixed `Could not understand audio` dict. -/
def transcribe_audio (env : Env) : Trace :=
  match env.writeTmp with
  | some e =>
      { outcome := outerHandler e, fallbackCalled := false,
        tmpCreated := false, tmpDeleted := false, calibWindow := none }
  | none =>
    match env.openAudio with
    | .raises e =>
        { outcome := outerHandler e, fallbackCalled := false,
          tmpCreated := true, tmpDeleted := false, calibWindow := none }
    | .ok audio_length =>
      let w := calibrationWindow audio_length
      match env.adjustNoise with
      | some e =>
          { outcome := outerHandler e, fallbackCalled := false,
            tmpCreated := true, tmpDeleted := false, calibWindow := some w }
      | none =>
        match env.recordStep with
        | some e =>
            { outcome := outerHandler e, fallbackCalled := false,
              tmpCreated := true, tmpDeleted := false, calibWindow := some w }
        | none =>
          match env.primary with
          | .ok text =>
              { outcome := .success text audio_length "High",
                fallbackCalled := false, tmpCreated := true,
                tmpDeleted := true, calibWindow := some w }
          | .raises e =>
              { outcome := outerHandler e, fallbackCalled := false,
                tmpCreated := true, tmpDeleted := false, calibWindow := some w }
          | .unknownValue =>
            match env.fallback with
            | .raises =>
                { outcome := .failure "Could not understand audio" (some audio_length),
                  fallbackCalled := true, tmpCreated := true,
                  tmpDeleted := true, calibWindow := some w }
            | .value result =>
              match result with
              | none =>
                  { outcome := .failure "Could not understand audio" (some audio_length),
                    fallbackCalled := true, tmpCreated := true,
                    tmpDeleted := true, calibWindow := some w }
              | some d =>
                match d.alternative with
                | some (c :: _) =>
                    { outcome := .success (c.transcript.getD "") audio_length "Low",
                      fallbackCalled := true, tmpCreated := true,
                      tmpDeleted := true, calibWindow := some w }
                | some [] =>
                    { outcome := .failure "Could not understand audio" (some audio_length),
                      fallbackCalled := true, tmpCreated := true,
                      tmpDeleted := true, calibWindow := some w }
                | none =>
                    { outcome := .failure "Could not understand audio" (some audio_length),
                      fallbackCalled := true, tmpCreated := true,
                      tmpDeleted := true, calibWindow := some w }

/-- The format-specific and generic decode paths of `convert_to_wav`, and the
WAV export, as inputs of the embedding: each maps bytes to a decoded audio
segment or an error message. -/
structure Decoders (α : Type) where
  fromMp3 : Bytes → Except String α
  fromOgg : Bytes → Except String α
  fromFlac : Bytes → Except String α
  fromM4a : Bytes → Except String α
  fromAuto : Bytes → Except String α
  exportWav : α → Except String Bytes

/-- What one run of `convert_to_wav` returns and does: the returned bytes
(`none` models the Python `None` on failure), the `st.error` message shown
on failure, and whether the generic auto-detecting decoder was invoked. -/
structure ConvResult where
  output : Option Bytes
  errorShown : Option String
  autoInvoked : Bool
deriving DecidableEq

/-- The tail of `convert_to_wav` after a decode path was chosen: on a decode
or export error the `except` handler at lines 87-89 shows the message and
returns `None`; otherwise the exported WAV bytes are returned. -/
def finishDecode {α : Type} (d : Decoders α) (decoded : Except String α)
    (auto : Bool) : ConvResult :=
  match decoded with
  | .error e =>
      { output := none, errorShown := some ("Error converting audio: " ++ e),
        autoInvoked := auto }
  | .ok a =>
    match d.exportWav a with
    | .error e =>
        { output := none, errorShown := some ("Error converting audio: " ++ e),
          autoInvoked := auto }
    | .ok out => { output := some out, errorShown := none, autoInvoked := auto }

/-- Shallow embedding of `convert_to_wav` (src/app.py lines 54-89): dispatch
on the file extension to one decode path, return `.wav` bytes unchanged, and
route every unrecognized extension to the generic auto-detecting decoder. -/
def convert_to_wav {α : Type} (d : Decoders α) (audio_bytes : Bytes)
    (file_extension : String) : ConvResult :=
  if file_extension = ".mp3" then finishDecode d (d.fromMp3 audio_bytes) false
  else if file_extension = ".ogg" then finishDecode d (d.fromOgg audio_bytes) false
  else if file_extension = ".flac" then finishDecode d (d.fromFlac audio_bytes) false
  else if file_extension = ".m4a" then finishDecode d (d.fromM4a audio_bytes) false
  else if file_extension = ".wav" then
    { output := some audio_bytes, errorShown := none, autoInvoked := false }
  else finishDecode d (d.fromAuto audio_bytes) true

/-- The format-specific decode path `convert_to_wav` selects for a declared
extension, when one exists (lines 67-74); `none` for `.wav` and for the
extensions routed to the generic decoder. -/
def specificDecoder {α : Type} (d : Decoders α) (file_extension : String) :
    Option (Bytes → Except String α) :=
  if file_extension = ".mp3" then some d.fromMp3
  else if file_extension = ".ogg" then some d.fromOgg
  else if file_extension = ".flac" then some d.fromFlac
  else if file_extension = ".m4a" then some d.fromM4a
  else none

/-- The decode path `convert_to_wav` selects for a declared extension other
than `.wav` (lines 67-78): one of the four format-specific decoders, or the
generic auto-detecting decoder for every other extension. -/
def selectedDecoder {α : Type} (d : Decoders α) (file_extension : String) :
    Bytes → Except String α :=
  if file_extension = ".mp3" then d.fromMp3
  else if file_extension = ".ogg" then d.fromOgg
  else if file_extension = ".flac" then d.fromFlac
  else if file_extension = ".m4a" then d.fromM4a
  else d.fromAuto

/-- The fallback call produced no usable candidate: it raised, returned a
falsy value, returned a dict without the `alternative` key, or returned an
empty candidate list. -/
def FallbackNoCandidate : FallbackResult → Prop
  | .raises => True
  | .value none => True
  | .value (some d) => d.alternative = none ∨ d.alternative = some []

/-- C1: when the scratch file, source open, calibration and record steps all
succeed, the primary recognition call signals no speech, and the fallback
call returns a ranked list whose first candidate carries transcript `t`,
`transcribe_audio` returns the success dict with text `t`, the measured
duration, and Low confidence. -/
theorem C1_fallback_first_candidate (env : Env) (D : ℚ) (t : String)
    (c : Candidate) (cs : List Candidate)
    (hw : env.writeTmp = none) (ho : env.openAudio = .ok D)
    (ha : env.adjustNoise = none) (hr : env.recordStep = none)
    (hp : env.primary = .unknownValue)
    (hf : env.fallback = .value (some ⟨some (c :: cs)⟩))
    (ht : c.transcript = some t) :
    (transcribe_audio env).outcome = .success t D "Low" := by
  simp [transcribe_audio, hw, ho, ha, hr, hp, hf, ht]

/-- Witness for C1 at a concrete run: a 0.4-second clip, primary signals no
speech, fallback ranks the candidates um and uh. -/
theorem C1_witness :
    (transcribe_audio
      { writeTmp := none, openAudio := .ok (2/5), adjustNoise := none,
        recordStep := none, primary := .unknownValue,
        fallback := .value (some ⟨some [⟨some "um"⟩, ⟨some "uh"⟩]⟩) }).outcome
      = .success "um" (2/5) "Low" :=
  C1_fallback_first_candidate _ _ _ _ _ rfl rfl rfl rfl rfl rfl rfl

/-- C2: when every step up to the primary recognition call succeeds and the
primary call returns text `t`, `transcribe_audio` returns the success dict
with text `t`, the measured duration, and High confidence, and the fallback
recognition call is never invoked. -/
theorem C2_primary_success (env : Env) (D : ℚ) (t : String)
    (hw : env.writeTmp = none) (ho : env.openAudio = .ok D)
    (ha : env.adjustNoise = none) (hr : env.recordStep = none)
    (hp : env.primary = .ok t) :
    (transcribe_audio env).outcome = .success t D "High"
      ∧ (transcribe_audio env).fallbackCalled = false := by
  simp [transcribe_audio, hw, ho, ha, hr, hp]

/-- Witness for C2 at a concrete run: a 3.2-second clip whose primary call
returns hello world. -/
theorem C2_witness :
    (transcribe_audio
      { writeTmp := none, openAudio := .ok (16/5), adjustNoise := none,
        recordStep := none, primary := .ok "hello world",
        fallback := .raises }).outcome = .success "hello world" (16/5) "High"
    ∧ (transcribe_audio
      { writeTmp := none, openAudio := .ok (16/5), adjustNoise := none,
        recordStep := none, primary := .ok "hello world",
        fallback := .raises }).fallbackCalled = false :=
  C2_primary_success _ _ _ rfl rfl rfl rfl rfl

/-- C3: when the primary call signals no speech and the fallback call yields
no usable candidate (it raises, returns a falsy value, lacks the alternative
key, or returns an empty list), `transcribe_audio` returns the failure dict
with exactly the error Could not understand audio and the measured duration;
moreover, with the primary call signalling no speech, no other error string
can come out of the fallback path at all. -/
theorem C3_fallback_no_candidate (env : Env) (D : ℚ)
    (hw : env.writeTmp = none) (ho : env.openAudio = .ok D)
    (ha : env.adjustNoise = none) (hr : env.recordStep = none)
    (hp : env.primary = .unknownValue) :
    (FallbackNoCandidate env.fallback →
      (transcribe_audio env).outcome = .failure "Could not understand audio" (some D))
    ∧ (∀ e d, (transcribe_audio env).outcome = .failure e d →
        e = "Could not understand audio" ∧ d = some D) := by
  constructor
  · intro hnc
    match hfb : env.fallback with
    | .raises => simp [transcribe_audio, hw, ho, ha, hr, hp, hfb]
    | .value none => simp [transcribe_audio, hw, ho, ha, hr, hp, hfb]
    | .value (some d) =>
      rw [hfb] at hnc
      rcases hnc with halt | halt <;>
        simp [transcribe_audio, hw, ho, ha, hr, hp, hfb, halt]
  · intro e d
    match hfb : env.fallback with
    | .raises => simp [transcribe_audio, hw, ho, ha, hr, hp, hfb] ; tauto
    | .value none => simp [transcribe_audio, hw, ho, ha, hr, hp, hfb] ; tauto
    | .value (some dd) =>
      match halt : dd.alternative with
      | none => simp [transcribe_audio, hw, ho, ha, hr, hp, hfb, halt] ; tauto
      | some [] => simp [transcribe_audio, hw, ho, ha, hr, hp, hfb, halt] ; tauto
      | some (c :: cs) => simp [transcribe_audio, hw, ho, ha, hr, hp, hfb, halt]

/-- Witness for C3 at a concrete run: primary signals no speech and the
fallback call raises. -/
theorem C3_witness :
    ((FallbackNoCandidate (FallbackResult.raises) →
      (transcribe_audio
        { writeTmp := none, openAudio := .ok 2, adjustNoise := none,
          recordStep := none, primary := .unknownValue,
          fallback := .raises }).outcome
        = .failure "Could not understand audio" (some 2))
    ∧ (∀ e d,
        (transcribe_audio
          { writeTmp := none, openAudio := .ok 2, adjustNoise := none,
            recordStep := none, primary := .unknownValue,
            fallback := .raises }).outcome = .failure e d →
          e = "Could not understand audio" ∧ d = some 2)) :=
  C3_fallback_no_candidate
    { writeTmp := none, openAudio := .ok 2, adjustNoise := none,
      recordStep := none, primary := .unknownValue, fallback := .raises }
    2 rfl rfl rfl rfl rfl

/-- C4: when every step up to the primary recognition call succeeds and the
primary call raises a transport error (`sr.RequestError`) with detail `s`,
`transcribe_audio` returns the failure dict whose error is the string
API error: followed by `s`, and the fallback call is never attempted. -/
theorem C4_transport_error (env : Env) (D : ℚ) (s : String)
    (hw : env.writeTmp = none) (ho : env.openAudio = .ok D)
    (ha : env.adjustNoise = none) (hr : env.recordStep = none)
    (hp : env.primary = .raises (.requestError s)) :
    (transcribe_audio env).outcome = .failure ("API error: " ++ s) none
      ∧ (transcribe_audio env).fallbackCalled = false := by
  simp [transcribe_audio, outerHandler, hw, ho, ha, hr, hp]

/-- Witness for C4 at a concrete run: the primary call raises a transport
error saying the service is unreachable. -/
theorem C4_witness :
    (transcribe_audio
      { writeTmp := none, openAudio := .ok 1, adjustNoise := none,
        recordStep := none,
        primary := .raises (.requestError "recognition service unreachable"),
        fallback := .raises }).outcome
      = .failure ("API error: " ++ "recognition service unreachable") none
    ∧ (transcribe_audio
      { writeTmp := none, openAudio := .ok 1, adjustNoise := none,
        recordStep := none,
        primary := .raises (.requestError "recognition service unreachable"),
        fallback := .raises }).fallbackCalled = false :=
  C4_transport_error _ _ _ rfl rfl rfl rfl rfl

/-- C5 counterexample: a run in which the source was opened and its duration
(3 seconds) measured, yet the transport-error failure returned for a primary
`RequestError` carries no duration at all, refuting the claim that every
outcome carries the measured duration once decoding succeeded. -/
theorem C5_counterexample :
    (transcribe_audio
      { writeTmp := none, openAudio := .ok 3, adjustNoise := none,
        recordStep := none,
        primary := .raises (.requestError "connection refused"),
        fallback := .raises }).outcome
      = .failure "API error: connection refused" none
    ∧ Outcome.durationOf
        (transcribe_audio
          { writeTmp := none, openAudio := .ok 3, adjustNoise := none,
            recordStep := none,
            primary := .raises (.requestError "connection refused"),
            fallback := .raises }).outcome = none := by
  constructor <;> rfl

/-- C5 amended: when the source was opened with measured duration `D` and
the primary recognition call does not raise (it succeeds or signals no
speech), every returned outcome carries duration `D`; a failure returned by
the outer handlers (a primary transport error among them) omits it. -/
theorem C5_duration_amended (env : Env) (D : ℚ)
    (hw : env.writeTmp = none) (ho : env.openAudio = .ok D)
    (ha : env.adjustNoise = none) (hr : env.recordStep = none)
    (hp : ∀ e, env.primary ≠ .raises e) :
    Outcome.durationOf (transcribe_audio env).outcome = some D := by
  match hpr : env.primary with
  | .raises e => exact absurd hpr (hp e)
  | .ok t => simp [transcribe_audio, hw, ho, ha, hr, hpr, Outcome.durationOf]
  | .unknownValue =>
    match hfb : env.fallback with
    | .raises => simp [transcribe_audio, hw, ho, ha, hr, hpr, hfb, Outcome.durationOf]
    | .value none => simp [transcribe_audio, hw, ho, ha, hr, hpr, hfb, Outcome.durationOf]
    | .value (some dd) =>
      match halt : dd.alternative with
      | none => simp [transcribe_audio, hw, ho, ha, hr, hpr, hfb, halt, Outcome.durationOf]
      | some [] => simp [transcribe_audio, hw, ho, ha, hr, hpr, hfb, halt, Outcome.durationOf]
      | some (c :: cs) =>
        simp [transcribe_audio, hw, ho, ha, hr, hpr, hfb, halt, Outcome.durationOf]

/-- Witness for the amended C5 at a concrete run: primary signals no speech
and the fallback returns an empty ranked list; the failure still carries the
measured duration. -/
theorem C5_duration_witness :
    Outcome.durationOf
      (transcribe_audio
        { writeTmp := none, openAudio := .ok 7, adjustNoise := none,
          recordStep := none, primary := .unknownValue,
          fallback := .value (some ⟨some []⟩) }).outcome = some 7 :=
  C5_duration_amended
    { writeTmp := none, openAudio := .ok 7, adjustNoise := none,
      recordStep := none, primary := .unknownValue,
      fallback := .value (some ⟨some []⟩) }
    7 rfl rfl rfl rfl (by intro e h ; exact PrimaryResult.noConfusion h)

/-- C6 counterexample: a run in which the scratch file was created but the
primary call raised a transport error; the exception jumps to the outer
handler, which never calls `os.unlink`, so the scratch file is leaked,
refuting the claim that it is released on every exit path. -/
theorem C6_counterexample :
    (transcribe_audio
      { writeTmp := none, openAudio := .ok 5, adjustNoise := none,
        recordStep := none,
        primary := .raises (.requestError "service timed out"),
        fallback := .raises }).tmpCreated = true
    ∧ (transcribe_audio
      { writeTmp := none, openAudio := .ok 5, adjustNoise := none,
        recordStep := none,
        primary := .raises (.requestError "service timed out"),
        fallback := .raises }).tmpDeleted = false := by
  constructor <;> rfl

/-- C6 amended: the scratch file is deleted on the primary-success path and
on every fallback path (fallback success, no candidates, fallback error),
that is, whenever every step through the primary call completes without
raising; when the primary call raises (a transport error included) or any
step after creation raises, the file is leaked. -/
theorem C6_tmp_amended (env : Env)
    (hw : env.writeTmp = none) (ho : ∀ e, env.openAudio ≠ .raises e)
    (ha : env.adjustNoise = none) (hr : env.recordStep = none)
    (hp : ∀ e, env.primary ≠ .raises e) :
    (transcribe_audio env).tmpCreated = true
      ∧ (transcribe_audio env).tmpDeleted = true := by
  match hoa : env.openAudio with
  | .raises e => exact absurd hoa (ho e)
  | .ok D =>
    match hpr : env.primary with
    | .raises e => exact absurd hpr (hp e)
    | .ok t => simp [transcribe_audio, hw, hoa, ha, hr, hpr]
    | .unknownValue =>
      match hfb : env.fallback with
      | .raises => simp [transcribe_audio, hw, hoa, ha, hr, hpr, hfb]
      | .value none => simp [transcribe_audio, hw, hoa, ha, hr, hpr, hfb]
      | .value (some dd) =>
        match halt : dd.alternative with
        | none => simp [transcribe_audio, hw, hoa, ha, hr, hpr, hfb, halt]
        | some [] => simp [transcribe_audio, hw, hoa, ha, hr, hpr, hfb, halt]
        | some (c :: cs) => simp [transcribe_audio, hw, hoa, ha, hr, hpr, hfb, halt]

/-- Witness for the amended C6 at a concrete run: primary succeeds and the
scratch file is created and deleted. -/
theorem C6_tmp_witness :
    (transcribe_audio
      { writeTmp := none, openAudio := .ok 4, adjustNoise := none,
        recordStep := none, primary := .ok "ok", fallback := .raises }).tmpCreated = true
    ∧ (transcribe_audio
      { writeTmp := none, openAudio := .ok 4, adjustNoise := none,
        recordStep := none, primary := .ok "ok", fallback := .raises }).tmpDeleted = true :=
  C6_tmp_amended
    { writeTmp := none, openAudio := .ok 4, adjustNoise := none,
      recordStep := none, primary := .ok "ok", fallback := .raises }
    rfl (by intro e h ; exact OpenResult.noConfusion h) rfl rfl
    (by intro e h ; exact PrimaryResult.noConfusion h)

/-- C7: for every declared extension other than the canonical `.wav`, when
the decode path selected for it (a format-specific decoder, or the generic
auto-detecting decoder for every other extension) fails with message `e`,
`convert_to_wav` returns no output bytes at all and shows the
conversion-error message carrying `e`; and whenever a format-specific
decoder was the selected one, the generic auto-detecting decoder is never
invoked after its failure. -/
theorem C7_decode_failure {α : Type} (d : Decoders α) (b : Bytes)
    (ext e : String) (hwav : ext ≠ ".wav")
    (hfail : selectedDecoder d ext b = .error e) :
    (convert_to_wav d b ext).output = none
    ∧ (convert_to_wav d b ext).errorShown
        = some ("Error converting audio: " ++ e)
    ∧ (∀ f, specificDecoder d ext = some f →
        (convert_to_wav d b ext).autoInvoked = false) := by
  unfold selectedDecoder at hfail
  unfold convert_to_wav specificDecoder
  by_cases h1 : ext = ".mp3"
  · rw [if_pos h1] at hfail
    simp [h1, finishDecode, hfail]
  · rw [if_neg h1] at hfail
    by_cases h2 : ext = ".ogg"
    · rw [if_pos h2] at hfail
      simp [h1, h2, finishDecode, hfail]
    · rw [if_neg h2] at hfail
      by_cases h3 : ext = ".flac"
      · rw [if_pos h3] at hfail
        simp [h1, h2, h3, finishDecode, hfail]
      · rw [if_neg h3] at hfail
        by_cases h4 : ext = ".m4a"
        · rw [if_pos h4] at hfail
          simp [h1, h2, h3, h4, finishDecode, hfail]
        · rw [if_neg h4] at hfail
          simp [h1, h2, h3, h4, hwav, finishDecode, hfail]

/-- Witness for C7 at a concrete run: a declared mp3 whose decoder rejects
the bytes as a corrupt stream. -/
theorem C7_witness :
    (convert_to_wav
      { fromMp3 := fun _ => .error "corrupt mp3 stream",
        fromOgg := fun _ => .ok (),
        fromFlac := fun _ => .ok (),
        fromM4a := fun _ => .ok (),
        fromAuto := fun _ => .ok (),
        exportWav := fun _ => .ok [0] }
      [1, 2, 3] ".mp3").output = none
    ∧ (convert_to_wav
      { fromMp3 := fun _ => .error "corrupt mp3 stream",
        fromOgg := fun _ => .ok (),
        fromFlac := fun _ => .ok (),
        fromM4a := fun _ => .ok (),
        fromAuto := fun _ => .ok (),
        exportWav := fun _ => .ok [0] }
      [1, 2, 3] ".mp3").errorShown
        = some ("Error converting audio: " ++ "corrupt mp3 stream")
    ∧ (∀ f, specificDecoder
      { fromMp3 := fun _ => .error "corrupt mp3 stream",
        fromOgg := fun _ => .ok (),
        fromFlac := fun _ => .ok (),
        fromM4a := fun _ => .ok (),
        fromAuto := fun _ => .ok (),
        exportWav := fun _ => .ok [0] } ".mp3" = some f →
      (convert_to_wav
        { fromMp3 := fun _ => .error "corrupt mp3 stream",
          fromOgg := fun _ => .ok (),
          fromFlac := fun _ => .ok (),
          fromM4a := fun _ => .ok (),
          fromAuto := fun _ => .ok (),
          exportWav := fun _ => .ok [0] }
        [1, 2, 3] ".mp3").autoInvoked = false) :=
  C7_decode_failure
    { fromMp3 := fun _ => .error "corrupt mp3 stream",
      fromOgg := fun _ => .ok (),
      fromFlac := fun _ => .ok (),
      fromM4a := fun _ => .ok (),
      fromAuto := fun _ => .ok (),
      exportWav := fun _ => .ok [0] }
    [1, 2, 3] ".mp3" "corrupt mp3 stream" (by decide) rfl

/-- C8: whenever the source is opened with measured duration `D`, the window
passed to the ambient-noise calibration is `min 1 D`; it never exceeds `D`,
and for a clip shorter than one second it equals the full clip length. -/
theorem C8_calibration_window (env : Env) (D : ℚ)
    (hw : env.writeTmp = none) (ho : env.openAudio = .ok D) :
    (transcribe_audio env).calibWindow = some (calibrationWindow D)
    ∧ calibrationWindow D = min 1 D
    ∧ calibrationWindow D ≤ D
    ∧ (D < 1 → calibrationWindow D = D) := by
  refine ⟨?_, rfl, min_le_right 1 D, fun h => min_eq_right h.le⟩
  match han : env.adjustNoise with
  | some e => simp [transcribe_audio, hw, ho, han]
  | none =>
    match hrc : env.recordStep with
    | some e => simp [transcribe_audio, hw, ho, han, hrc]
    | none =>
      match hpr : env.primary with
      | .ok t => simp [transcribe_audio, hw, ho, han, hrc, hpr]
      | .raises e => simp [transcribe_audio, hw, ho, han, hrc, hpr]
      | .unknownValue =>
        match hfb : env.fallback with
        | .raises => simp [transcribe_audio, hw, ho, han, hrc, hpr, hfb]
        | .value none => simp [transcribe_audio, hw, ho, han, hrc, hpr, hfb]
        | .value (some dd) =>
          match halt : dd.alternative with
          | none => simp [transcribe_audio, hw, ho, han, hrc, hpr, hfb, halt]
          | some [] => simp [transcribe_audio, hw, ho, han, hrc, hpr, hfb, halt]
          | some (c :: cs) => simp [transcribe_audio, hw, ho, han, hrc, hpr, hfb, halt]

/-- Witness for C8 at a concrete run: a 0.4-second clip, whose calibration
window is the full 0.4 seconds. -/
theorem C8_witness :
    (transcribe_audio
      { writeTmp := none, openAudio := .ok (2/5), adjustNoise := none,
        recordStep := none, primary := .ok "hi",
        fallback := .raises }).calibWindow = some (calibrationWindow (2/5))
    ∧ calibrationWindow (2/5) = min 1 (2/5)
    ∧ calibrationWindow (2/5) ≤ (2/5 : ℚ)
    ∧ ((2/5 : ℚ) < 1 → calibrationWindow (2/5) = (2/5 : ℚ)) :=
  C8_calibration_window
    { writeTmp := none, openAudio := .ok (2/5), adjustNoise := none,
      recordStep := none, primary := .ok "hi", fallback := .raises }
    (2/5) rfl rfl

/-- C9: when the primary call signals no speech and the fallback returns a
non-empty candidate list whose first candidate carries no transcript key,
`transcribe_audio` still returns a success dict, with the empty string as
text and Low confidence, rather than a failure. -/
theorem C9_missing_transcript (env : Env) (D : ℚ) (cs : List Candidate)
    (hw : env.writeTmp = none) (ho : env.openAudio = .ok D)
    (ha : env.adjustNoise = none) (hr : env.recordStep = none)
    (hp : env.primary = .unknownValue)
    (hf : env.fallback = .value (some ⟨some (⟨none⟩ :: cs)⟩)) :
    (transcribe_audio env).outcome = .success "" D "Low" := by
  simp [transcribe_audio, hw, ho, ha, hr, hp, hf]

/-- Witness for C9 at a concrete run: the single ranked candidate is a dict
without a transcript key. -/
theorem C9_witness :
    (transcribe_audio
      { writeTmp := none, openAudio := .ok 6, adjustNoise := none,
        recordStep := none, primary := .unknownValue,
        fallback := .value (some ⟨some [⟨none⟩]⟩) }).outcome
      = .success "" 6 "Low" :=
  C9_missing_transcript _ _ _ rfl rfl rfl rfl rfl rfl

/-- Every outer-handler failure dict has one of the two prefixed error
strings and no duration. -/
theorem outerHandler_shape (e : PyErr) :
    (∃ s, outerHandler e = .failure ("API error: " ++ s) none)
    ∨ (∃ s, outerHandler e = .failure ("Error: " ++ s) none) := by
  cases e
  · exact Or.inl ⟨_, rfl⟩
  · exact Or.inr ⟨_, rfl⟩

/-- C10: for every behaviour of the fallible steps, `transcribe_audio`
returns a structured outcome dict: either a success with High or Low
confidence, or a failure whose error string is one of the three defined
forms (the fixed no-speech message, an API error string, or a generic
error string); no exception escapes unhandled. -/
theorem C10_total_structured (env : Env) :
    (∃ t D c, (transcribe_audio env).outcome = .success t D c
        ∧ (c = "High" ∨ c = "Low"))
    ∨ (∃ r d, (transcribe_audio env).outcome = .failure r d
        ∧ (r = "Could not understand audio"
            ∨ (∃ s, r = "API error: " ++ s) ∨ (∃ s, r = "Error: " ++ s))) := by
  have houter : ∀ (e : PyErr) (o : Outcome), o = outerHandler e →
      (∃ t D c, o = .success t D c ∧ (c = "High" ∨ c = "Low"))
      ∨ (∃ r d, o = .failure r d
          ∧ (r = "Could not understand audio"
              ∨ (∃ s, r = "API error: " ++ s) ∨ (∃ s, r = "Error: " ++ s))) := by
    intro e o ho
    rcases outerHandler_shape e with ⟨s, hs⟩ | ⟨s, hs⟩
    · exact Or.inr ⟨_, _, ho.trans hs, Or.inr (Or.inl ⟨s, rfl⟩)⟩
    · exact Or.inr ⟨_, _, ho.trans hs, Or.inr (Or.inr ⟨s, rfl⟩)⟩
  match hw : env.writeTmp with
  | some e => exact houter e _ (by simp [transcribe_audio, hw])
  | none =>
    match hoa : env.openAudio with
    | .raises e => exact houter e _ (by simp [transcribe_audio, hw, hoa])
    | .ok D =>
      match han : env.adjustNoise with
      | some e => exact houter e _ (by simp [transcribe_audio, hw, hoa, han])
      | none =>
        match hrc : env.recordStep with
        | some e => exact houter e _ (by simp [transcribe_audio, hw, hoa, han, hrc])
        | none =>
          match hpr : env.primary with
          | .raises e =>
            exact houter e _ (by simp [transcribe_audio, hw, hoa, han, hrc, hpr])
          | .ok t =>
            refine Or.inl ⟨t, D, "High", ?_, Or.inl rfl⟩
            simp [transcribe_audio, hw, hoa, han, hrc, hpr]
          | .unknownValue =>
            match hfb : env.fallback with
            | .raises =>
              refine Or.inr ⟨"Could not understand audio", some D, ?_, Or.inl rfl⟩
              simp [transcribe_audio, hw, hoa, han, hrc, hpr, hfb]
            | .value none =>
              refine Or.inr ⟨"Could not understand audio", some D, ?_, Or.inl rfl⟩
              simp [transcribe_audio, hw, hoa, han, hrc, hpr, hfb]
            | .value (some dd) =>
              match halt : dd.alternative with
              | none =>
                refine Or.inr ⟨"Could not understand audio", some D, ?_, Or.inl rfl⟩
                simp [transcribe_audio, hw, hoa, han, hrc, hpr, hfb, halt]
              | some [] =>
                refine Or.inr ⟨"Could not understand audio", some D, ?_, Or.inl rfl⟩
                simp [transcribe_audio, hw, hoa, han, hrc, hpr, hfb, halt]
              | some (c :: cs) =>
                refine Or.inl ⟨c.transcript.getD "", D, "Low", ?_, Or.inr rfl⟩
                simp [transcribe_audio, hw, hoa, han, hrc, hpr, hfb, halt]

end SpeechTotext
